import Mathlib

/-!
Verification of the caching and cache-invalidation subsystem of the
contact-management API (src/src/services/cache.py, src/src/services/contacts.py,
src/src/services/admin.py, src/src/repository/contacts.py).

The embedding is shallow:
* JSON documents (`json.dumps`/`json.loads` payloads) are an inductive `Json`;
  `json.dumps` followed by `json.loads` is the identity on this AST, and a
  payload that `json.loads` rejects (corrupted cache entry) is `RVal.bad`.
* The Redis backend is an association list of key / value / absolute-expiry
  triples together with a clock `now`; `setex`, `get` (with lazy expiry) and
  `delete` are modelled directly.  The process-wide `CacheService` state is the
  `cache_enabled` flag plus the optional client, as in `CacheService.__init__`.
* Python truthiness tests (`if cached_data:`, `if contacts:`) are modelled by
  `Json.truthy` / list emptiness on the exact value the code tests.
* Exceptions that the source catches inside the cache layer are modelled by the
  corresponding branch returning the documented sentinel; exceptions that the
  source lets escape (e.g. the duplicate-email `HTTPException` in
  `ContactService.create_contact`) are modelled by an `Option` result.
-/

/-- JSON values, the image of `json.dumps`/`json.loads` used by the cache. -/
inductive Json where
  | null
  | bool (b : Bool)
  | num (n : Int)
  | str (s : String)
  | arr (elems : List Json)
  | obj (fields : List (String × Json))

/-- Python truthiness of a decoded JSON value (`if cached_data:` after
`json.loads`): `None`, `False`, `0`, `""`, `[]`, `{}` are falsy. -/
def Json.truthy : Json → Bool
  | .null => false
  | .bool b => b
  | .num n => n != 0
  | .str s => !s.data.isEmpty
  | .arr xs => !xs.isEmpty
  | .obj fs => !fs.isEmpty

/-- Field lookup in a decoded JSON object (`data['field']`); `none` models the
`KeyError`/`TypeError` the subscript would raise. -/
def Json.lookup (j : Json) (k : String) : Option Json :=
  match j with
  | .obj fields => (fields.find? (fun f => f.1 == k)).map (fun f => f.2)
  | _ => none

/-- A `datetime.date` value (year, month, day). -/
structure DateD where
  year : Nat
  month : Nat
  day : Nat
deriving DecidableEq

/-- A valid Python `datetime.date`: year in `1..9999`, month in `1..12`,
day in `1..31`. -/
def DateD.valid (d : DateD) : Prop :=
  1 ≤ d.year ∧ d.year ≤ 9999 ∧ 1 ≤ d.month ∧ d.month ≤ 12 ∧ 1 ≤ d.day ∧ d.day ≤ 31

instance (d : DateD) : Decidable d.valid := by
  unfold DateD.valid; infer_instance

/-- The decimal digit character for `n ∈ 0..9`. -/
def digitChar : Nat → Char
  | 0 => '0' | 1 => '1' | 2 => '2' | 3 => '3' | 4 => '4'
  | 5 => '5' | 6 => '6' | 7 => '7' | 8 => '8' | 9 => '9'
  | _ => '?'

/-- Numeric value of a decimal digit character. -/
def digitVal : Char → Nat
  | '0' => 0 | '1' => 1 | '2' => 2 | '3' => 3 | '4' => 4
  | '5' => 5 | '6' => 6 | '7' => 7 | '8' => 8 | '9' => 9
  | _ => 10

/-- Whether a character is a decimal digit. -/
def isDigitCh (c : Char) : Bool := digitVal c < 10

/-- `date.isoformat()`: the fixed-width `YYYY-MM-DD` rendering. -/
def DateD.isoformat (d : DateD) : String :=
  String.mk
    [digitChar (d.year / 1000 % 10), digitChar (d.year / 100 % 10),
     digitChar (d.year / 10 % 10), digitChar (d.year % 10), '-',
     digitChar (d.month / 10 % 10), digitChar (d.month % 10), '-',
     digitChar (d.day / 10 % 10), digitChar (d.day % 10)]

/-- `datetime.fromisoformat(s).date()` on the `YYYY-MM-DD` format produced by
`date.isoformat()` (the only shape the cache ever stores); any other shape is
`none`, modelling the `ValueError` Python raises.  (Python additionally
range-checks month and day, which only shrinks the accepted set; the cache only
ever decodes strings it encoded from valid dates.) -/
def fromisoformat (s : String) : Option DateD :=
  match s.data with
  | [y1, y2, y3, y4, s1, m1, m2, s2, d1, d2] =>
    if (s1 == '-') && (s2 == '-') && isDigitCh y1 && isDigitCh y2 && isDigitCh y3 &&
        isDigitCh y4 && isDigitCh m1 && isDigitCh m2 && isDigitCh d1 && isDigitCh d2 then
      some ⟨digitVal y1 * 1000 + digitVal y2 * 100 + digitVal y3 * 10 + digitVal y4,
            digitVal m1 * 10 + digitVal m2,
            digitVal d1 * 10 + digitVal d2⟩
    else none
  | _ => none

/-- A stored cache payload: either a well-formed JSON document (what
`json.dumps` produced, decoded back by `json.loads`), or a malformed payload on
which `json.loads` raises. -/
inductive RVal where
  | txt (j : Json)
  | bad

/-- The Redis backend: a clock (seconds) and an association list mapping each
key to its payload and absolute expiry time (`SETEX key ttl` stores expiry
`now + ttl`; a key is live while `now < expiry`). -/
structure Redis where
  now : Nat
  store : List (String × RVal × Nat)
  info : List (String × Json)

/-- Raw entry for a key (ignoring expiry). -/
def Redis.getEntry (r : Redis) (k : String) : Option (RVal × Nat) :=
  (r.store.find? (fun e => e.1 == k)).map (fun e => e.2)

/-- `GET key`: the payload if the key is present and not expired. -/
def Redis.getLive (r : Redis) (k : String) : Option RVal :=
  match r.getEntry k with
  | some (v, exp) => if r.now < exp then some v else none
  | none => none

/-- Remove a key from the store. -/
def Redis.erase (r : Redis) (k : String) : Redis :=
  { r with store := r.store.filter (fun e => e.1 != k) }

/-- Store `v` under `k` with the absolute expiry time `exp` (the store shape
shared by `SETEX` and by an `INCR` that keeps the key's remaining TTL). -/
def Redis.setAbs (r : Redis) (k : String) (exp : Nat) (v : RVal) : Redis :=
  { r with store := (k, v, exp) :: (r.erase k).store }

/-- `SETEX key ttl value`. -/
def Redis.setex (r : Redis) (k : String) (ttl : Nat) (v : RVal) : Redis :=
  r.setAbs k (r.now + ttl) v

/-- `DEL key...`: returns the number of live keys removed and the new store. -/
def Redis.delMany (r : Redis) (ks : List String) : Nat × Redis :=
  (ks.countP (fun k => (r.getLive k).isSome),
   { r with store := r.store.filter (fun e => !(ks.contains e.1)) })

/-- Wall-clock passage of `d` seconds. -/
def Redis.advance (r : Redis) (d : Nat) : Redis := { r with now := r.now + d }

/-- The process-wide `CacheService` state (`self.cache_enabled`,
`self.redis_client`). -/
structure CacheSt where
  cache_enabled : Bool
  redis_client : Option Redis

/-- Wall-clock passage seen by the cache service. -/
def CacheSt.advance (cs : CacheSt) (d : Nat) : CacheSt :=
  { cs with redis_client := cs.redis_client.map (fun r => r.advance d) }

/-- `settings.app_name` (src/src/conf/config.py). -/
def app_name : String := "Contacts API"

/-- `CacheService._generate_key`: `f"{settings.app_name}:{prefix}:{identifier}"`. -/
def generate_key (kind : String) (identifier : String) : String :=
  app_name ++ ":" ++ kind ++ ":" ++ identifier

/-- The `User` ORM model (src/src/database/models.py); the `contacts`
relationship attribute is a back-reference, not a column, and is not part of
the value model. -/
structure User where
  id : Int
  username : String
  email : String
  hashed_password : String
  full_name : Option String
  is_active : Bool
  is_verified : Bool
  verification_token : Option String
  avatar_url : Option String
  reset_token : Option String
  reset_token_expires : Option Nat

/-- The `Contact` ORM model (src/src/database/models.py); the `owner`
relationship attribute is a back-reference, not a column, and is not part of
the value model. -/
structure Contact where
  id : Int
  first_name : String
  last_name : String
  email : String
  phone : String
  birthday : Option DateD
  additional_info : Option String
  user_id : Int

/-- `None`-or-string field as JSON. -/
def optStrJson : Option String → Json
  | none => Json.null
  | some s => Json.str s

/-- `CacheService._serialize_user`. -/
def serialize_user (user : User) : Json :=
  Json.obj
    [("id", Json.num user.id),
     ("username", Json.str user.username),
     ("email", Json.str user.email),
     ("full_name", optStrJson user.full_name),
     ("is_active", Json.bool user.is_active),
     ("is_verified", Json.bool user.is_verified),
     ("avatar_url", optStrJson user.avatar_url),
     ("hashed_password", Json.str user.hashed_password)]

/-- `CacheService._deserialize_user` (the identity on the decoded mapping). -/
def deserialize_user (data : Json) : Json := data

/-- `CacheService._serialize_contact`. -/
def serialize_contact (contact : Contact) : Json :=
  Json.obj
    [("id", Json.num contact.id),
     ("first_name", Json.str contact.first_name),
     ("last_name", Json.str contact.last_name),
     ("email", Json.str contact.email),
     ("phone", Json.str contact.phone),
     ("birthday",
       match contact.birthday with
       | some b => Json.str b.isoformat
       | none => Json.null),
     ("additional_info", optStrJson contact.additional_info),
     ("user_id", Json.num contact.user_id)]

/-- `CacheService.set_user_cache`: caches the serialized user under the id,
username and email keys in one pipeline; `False` when disabled. -/
def set_user_cache (cs : CacheSt) (user : User) (ttl : Nat) : Bool × CacheSt :=
  match cs.redis_client, cs.cache_enabled with
  | some r, true =>
    let user_json := RVal.txt (serialize_user user)
    let r1 := r.setex (generate_key "user_id" (toString user.id)) ttl user_json
    let r2 := r1.setex (generate_key "user_username" user.username) ttl user_json
    let r3 := r2.setex (generate_key "user_email" user.email) ttl user_json
    (true, { cs with redis_client := some r3 })
  | _, _ => (false, cs)

/-- Shared read path of the three user getters: `GET`, Python truthiness of the
raw payload, then `json.loads` (a decode failure is caught and yields `None`).
A `json.dumps` document is a non-empty string, so a stored `RVal.txt` payload
is always truthy. -/
def read_user_key (cs : CacheSt) (key : String) : Option Json :=
  match cs.redis_client, cs.cache_enabled with
  | some r, true =>
    match r.getLive key with
    | some (RVal.txt j) => some (deserialize_user j)
    | some RVal.bad => none
    | none => none
  | _, _ => none

/-- `CacheService.get_user_by_id`. -/
def get_user_by_id (cs : CacheSt) (user_id : Int) : Option Json :=
  read_user_key cs (generate_key "user_id" (toString user_id))

/-- `CacheService.get_user_by_username`. -/
def get_user_by_username (cs : CacheSt) (username : String) : Option Json :=
  read_user_key cs (generate_key "user_username" username)

/-- `CacheService.get_user_by_email`. -/
def get_user_by_email (cs : CacheSt) (email : String) : Option Json :=
  read_user_key cs (generate_key "user_email" email)

/-- `CacheService.invalidate_user_cache`: deletes the three identity keys in
one batch; `False` when disabled, `True` otherwise. -/
def invalidate_user_cache (cs : CacheSt) (user : User) : Bool × CacheSt :=
  match cs.redis_client, cs.cache_enabled with
  | some r, true =>
    let keys := [generate_key "user_id" (toString user.id),
                 generate_key "user_username" user.username,
                 generate_key "user_email" user.email]
    (true, { cs with redis_client := some (r.delMany keys).2 })
  | _, _ => (false, cs)

/-- `CacheService.set_contacts_cache`: caches the serialized contact list under
the owning user's contacts key. -/
def set_contacts_cache (cs : CacheSt) (user_id : Int) (contacts : List Contact)
    (ttl : Nat) : Bool × CacheSt :=
  match cs.redis_client, cs.cache_enabled with
  | some r, true =>
    let payload := RVal.txt (Json.arr (contacts.map serialize_contact))
    let r2 := r.setex (generate_key "user_contacts" (toString user_id)) ttl payload
    (true, { cs with redis_client := some r2 })
  | _, _ => (false, cs)

/-- `CacheService.get_contacts_cache`: returns the decoded list on a live
well-formed payload; a decode failure is caught and yields `None`. -/
def get_contacts_cache (cs : CacheSt) (user_id : Int) : Option Json :=
  match cs.redis_client, cs.cache_enabled with
  | some r, true =>
    match r.getLive (generate_key "user_contacts" (toString user_id)) with
    | some (RVal.txt j) => some j
    | some RVal.bad => none
    | none => none
  | _, _ => none

/-- `CacheService.invalidate_contacts_cache`: deletes the contacts key and
returns whether a key was actually deleted. -/
def invalidate_contacts_cache (cs : CacheSt) (user_id : Int) : Bool × CacheSt :=
  match cs.redis_client, cs.cache_enabled with
  | some r, true =>
    let (deleted, r2) := r.delMany [generate_key "user_contacts" (toString user_id)]
    (decide (0 < deleted), { cs with redis_client := some r2 })
  | _, _ => (false, cs)

/-- A `MockUser` built inside `clear_user_all_cache` from the cached snapshot
(only `id`, `username`, `email` are read by `invalidate_user_cache`). -/
def mkMockUser (id : Int) (username email : String) : User :=
  { id := id, username := username, email := email, hashed_password := "",
    full_name := none, is_active := true, is_verified := false,
    verification_token := none, avatar_url := none, reset_token := none,
    reset_token_expires := none }

/-- `CacheService.clear_user_all_cache`: reads the cached snapshot by id to
learn the username/email keys, invalidates the identity triple when a snapshot
was found, then invalidates the contacts key; a `KeyError`/`TypeError` while
reading the snapshot fields is caught and yields `False`. -/
def clear_user_all_cache (cs : CacheSt) (user_id : Int) : Bool × CacheSt :=
  match get_user_by_id cs user_id with
  | some data =>
    match data.lookup "id", data.lookup "username", data.lookup "email" with
    | some (Json.num mid), some (Json.str musername), some (Json.str memail) =>
      let cs1 := (invalidate_user_cache cs (mkMockUser mid musername memail)).2
      let cs2 := (invalidate_contacts_cache cs1 user_id).2
      (true, cs2)
    | _, _, _ => (false, cs)
  | none =>
    (true, (invalidate_contacts_cache cs user_id).2)

/-- `info.get(field, default)` on the Redis `INFO` reply. -/
def infoGet (info : List (String × Json)) (k : String) (dflt : Json) : Json :=
  match info.find? (fun e => e.1 == k) with
  | some e => e.2
  | none => dflt

/-- `CacheService.get_cache_stats`. -/
def get_cache_stats (cs : CacheSt) : Json :=
  match cs.redis_client, cs.cache_enabled with
  | some r, true =>
    Json.obj
      [("enabled", Json.bool true),
       ("connected_clients", infoGet r.info "connected_clients" (Json.num 0)),
       ("used_memory", infoGet r.info "used_memory_human" (Json.str "0B")),
       ("keyspace_hits", infoGet r.info "keyspace_hits" (Json.num 0)),
       ("keyspace_misses", infoGet r.info "keyspace_misses" (Json.num 0)),
       ("redis_version", infoGet r.info "redis_version" (Json.str "unknown"))]
  | _, _ =>
    Json.obj [("enabled", Json.bool false),
              ("error", Json.str "Cache disabled or unavailable")]

/-- The authoritative contacts table plus the autoincrement id counter. -/
structure ContactsDB where
  rows : List Contact
  next_id : Int

/-- `ContactRepository.get_contacts_by_user`: filter by owner, `OFFSET skip
LIMIT limit`. -/
def repo_get_contacts_by_user (db : ContactsDB) (user_id : Int) (skip limit : Nat) :
    List Contact :=
  (((db.rows.filter (fun c => c.user_id == user_id)).drop skip).take limit)

/-- `ContactRepository.get_contact_by_email` with a `user_id` filter. -/
def repo_get_contact_by_email (db : ContactsDB) (email : String) (user_id : Int) :
    Option Contact :=
  db.rows.find? (fun c => c.email == email && c.user_id == user_id)

/-- `ContactRepository.get_contact_by_id`. -/
def repo_get_contact_by_id (db : ContactsDB) (contact_id : Int) : Option Contact :=
  db.rows.find? (fun c => c.id == contact_id)

/-- The data of a `ContactCreate` request body (src/src/schemas.py:
`ContactBase`; note it has no `user_id` field). -/
structure ContactCreate where
  first_name : String
  last_name : String
  email : String
  phone : String
  birthday : DateD
  additional_info : Option String

/-- `ContactRepository.create_contact`: builds a row with
`user_id=getattr(contact, 'user_id', None)` — the `user_id` argument here is
that `getattr` result — and commits.  `contacts.user_id` is a `NOT NULL`
column (src/src/database/models.py), so committing `None` there raises
`IntegrityError`, modelled as `none`; otherwise the fresh row gets the next
autoincrement id. -/
def repo_create_contact (db : ContactsDB) (c : ContactCreate)
    (user_id : Option Int) : Option (Contact × ContactsDB) :=
  match user_id with
  | none => none
  | some uid =>
    let newc : Contact :=
      { id := db.next_id, first_name := c.first_name, last_name := c.last_name,
        email := c.email, phone := c.phone, birthday := some c.birthday,
        additional_info := c.additional_info, user_id := uid }
    some (newc, { rows := db.rows ++ [newc], next_id := db.next_id + 1 })

/-- A `ContactUpdate` request body; `none` models a field left unset
(`model_dump(exclude_unset=True)` skips it). -/
structure ContactUpdate where
  first_name : Option String
  last_name : Option String
  email : Option String
  phone : Option String
  birthday : Option DateD
  additional_info : Option String

/-- Apply the set fields of an update to a row (the `setattr` loop in
`ContactRepository.update_contact`). -/
def applyUpdate (c : Contact) (u : ContactUpdate) : Contact :=
  { c with
    first_name := u.first_name.getD c.first_name,
    last_name := u.last_name.getD c.last_name,
    email := u.email.getD c.email,
    phone := u.phone.getD c.phone,
    birthday := match u.birthday with | some b => some b | none => c.birthday,
    additional_info := match u.additional_info with
      | some s => some s | none => c.additional_info }

/-- `ContactRepository.update_contact`. -/
def repo_update_contact (db : ContactsDB) (contact_id : Int) (u : ContactUpdate) :
    Option Contact × ContactsDB :=
  match db.rows.find? (fun c => c.id == contact_id) with
  | some row =>
    let row2 := applyUpdate row u
    (some row2,
     { db with rows := db.rows.map (fun c => if c.id == contact_id then row2 else c) })
  | none => (none, db)

/-- `ContactRepository.delete_contact`. -/
def repo_delete_contact (db : ContactsDB) (contact_id : Int) : Bool × ContactsDB :=
  match db.rows.find? (fun c => c.id == contact_id) with
  | some _ => (true, { db with rows := db.rows.filter (fun c => c.id != contact_id) })
  | none => (false, db)

/-- Combined application state seen by `ContactService`: the authoritative
store and the cache service. -/
structure AppSt where
  db : ContactsDB
  cache : CacheSt

/-- Rebuild one `Contact` from a cached mapping — the `setattr` loop in
`ContactService.get_contacts`, which parses `birthday` with
`datetime.fromisoformat(value).date()` when the value is truthy and assigns
the other fields verbatim.  `none` models a shape on which that loop would
raise (or produce a type-confused attribute); the loop is only ever run on
snapshots produced by `serialize_contact`. -/
def contact_from_cached (j : Json) : Option Contact :=
  match j.lookup "id", j.lookup "first_name", j.lookup "last_name",
        j.lookup "email", j.lookup "phone", j.lookup "additional_info",
        j.lookup "user_id" with
  | some (Json.num id), some (Json.str fn), some (Json.str ln),
    some (Json.str em), some (Json.str ph), some ai, some (Json.num uid) =>
    let addInfo : Option (Option String) :=
      match ai with
      | Json.null => some none
      | Json.str s => some (some s)
      | _ => none
    let bday : Option (Option DateD) :=
      match j.lookup "birthday" with
      | some Json.null => some none
      | some (Json.str s) =>
        if s.data.isEmpty then some none
        else (fromisoformat s).map some
      | _ => none
    match addInfo, bday with
    | some ai2, some b2 =>
      some { id := id, first_name := fn, last_name := ln, email := em,
             phone := ph, birthday := b2, additional_info := ai2, user_id := uid }
    | _, _ => none
  | _, _, _, _, _, _, _ => none

/-- Rebuild the cached contact list (`for contact_data in cached_contacts`). -/
def contacts_from_cached (js : List Json) : Option (List Contact) :=
  js.mapM contact_from_cached

/-- `ContactService.get_contacts`.  Result: the returned list, the new
application state, and whether the authoritative store was queried; `none`
models an exception escaping the conversion loop.  The cache path is taken
only when `skip == 0 and limit >= 100` and the decoded payload is truthy
(an empty cached list is falsy, hence treated as a miss); the store path
caches the fetched list whenever `skip == 0` and the list is non-empty. -/
def service_get_contacts (st : AppSt) (user_id : Int) (skip limit : Nat) :
    Option (List Contact × AppSt × Bool) :=
  let db_path : Option (List Contact × AppSt × Bool) :=
    let contacts := repo_get_contacts_by_user st.db user_id skip limit
    let cache2 :=
      if skip == 0 && !contacts.isEmpty then
        (set_contacts_cache st.cache user_id contacts 1800).2
      else st.cache
    some (contacts, { st with cache := cache2 }, true)
  if skip == 0 && limit ≥ 100 then
    match get_contacts_cache st.cache user_id with
    | some cached =>
      if cached.truthy then
        match cached with
        | Json.arr items =>
          match contacts_from_cached items with
          | some contacts =>
            let sliced :=
              if limit < contacts.length then (contacts.drop skip).take limit
              else contacts.drop skip
            some (sliced, st, false)
          | none => none
        | _ => none
      else db_path
    | none => db_path
  else db_path

/-- `ContactService.create_contact`: duplicate-email check (an existing match
raises `HTTPException`, modelled as `none`), then
`ContactRepository.create_contact(ContactCreate(**contact_data))`.  The
service injects `user_id` into the plain dict, but rebuilding the pydantic
`ContactCreate` silently drops the extra key — the schema has no `user_id`
field and no `extra` config — so the repository's
`getattr(contact, 'user_id', None)` is `None` (the `none` passed below) and
the `NOT NULL` insert raises `IntegrityError` out of the service before the
`if new_contact:` invalidation block can run; `none` models that escape.
The success continuation transcribes the source's invalidate-after-create
code, which is unreachable. -/
def service_create_contact (st : AppSt) (c : ContactCreate) (user_id : Int) :
    Option (Contact × AppSt) :=
  match repo_get_contact_by_email st.db c.email user_id with
  | some _ => none
  | none =>
    match repo_create_contact st.db c none with
    | none => none
    | some (newc, db2) =>
      let cache2 := (invalidate_contacts_cache st.cache user_id).2
      some (newc, { db := db2, cache := cache2 })

/-- `ContactService.update_contact`: ownership check, email-conflict check
(a conflict raises `HTTPException`, modelled as the outer `none`), update,
then invalidate the owner's contact cache; `some none` is the "not found /
not owned" result. -/
def service_update_contact (st : AppSt) (contact_id : Int) (u : ContactUpdate)
    (user_id : Int) : Option (Option Contact × AppSt) :=
  match repo_get_contact_by_id st.db contact_id with
  | none => some (none, st)
  | some existing =>
    if existing.user_id != user_id then some (none, st)
    else
      let emailConflict :=
        match u.email with
        | some e =>
          !e.data.isEmpty && e != existing.email &&
            (repo_get_contact_by_email st.db e user_id).isSome
        | none => false
      if emailConflict then none
      else
        let (updated, db2) := repo_update_contact st.db contact_id u
        match updated with
        | some row =>
          let cache2 := (invalidate_contacts_cache st.cache user_id).2
          some (some row, { db := db2, cache := cache2 })
        | none => some (none, { st with db := db2 })

/-- `ContactService.delete_contact`: ownership check, delete, then invalidate
the owner's contact cache. -/
def service_delete_contact (st : AppSt) (contact_id : Int) (user_id : Int) :
    Bool × AppSt :=
  match repo_get_contact_by_id st.db contact_id with
  | none => (false, st)
  | some existing =>
    if existing.user_id != user_id then (false, st)
    else
      let (deleted, db2) := repo_delete_contact st.db contact_id
      if deleted then
        let cache2 := (invalidate_contacts_cache st.cache user_id).2
        (true, { db := db2, cache := cache2 })
      else (false, { st with db := db2 })

/-- Modelled from the spec: the TTL window of the password-reset attempt
counter.  `check_reset_attempts` is absent from `CacheService`
(src/src/services/cache.py); the spec (§4.4, §8) fixes the counting behaviour
but not the window length, so it is an unspecified positive constant here. -/
def reset_attempts_window : Nat := 3600

/-- Modelled from the spec: `check_reset_attempts(email, max_attempts)` is
called by `forgot_password` (src/src/api/auth.py) but absent from
`CacheService`.  Spec §4.4: "atomically increments a bounded counter keyed by
email with a TTL window; returns false once the counter exceeds `max_attempts`
within the window"; §7: rate limiting fails open when the backend is down
(the request is allowed through).  An `INCR` keeps the key's existing expiry;
the window starts at the first attempt. -/
def check_reset_attempts (cs : CacheSt) (email : String) (max_attempts : Nat) :
    Bool × CacheSt :=
  match cs.redis_client, cs.cache_enabled with
  | some r, true =>
    let key := generate_key "reset_attempts" email
    match r.getEntry key with
    | some (RVal.txt (Json.num n), exp) =>
      if r.now < exp then
        let r2 := r.setAbs key exp (RVal.txt (Json.num (n + 1)))
        (decide (n + 1 ≤ (max_attempts : Int)), { cs with redis_client := some r2 })
      else
        let r2 := r.setex key reset_attempts_window (RVal.txt (Json.num 1))
        (decide (1 ≤ max_attempts), { cs with redis_client := some r2 })
    | _ =>
      let r2 := r.setex key reset_attempts_window (RVal.txt (Json.num 1))
      (decide (1 ≤ max_attempts), { cs with redis_client := some r2 })
  | _, _ => (true, cs)

/-- Modelled from the spec: `set_reset_token_cache(email, token)` is called by
`forgot_password` (src/src/api/auth.py) but absent from `CacheService`.
Spec §4.4: "secondary tracking of in-flight reset tokens"; the token entry is
keyed by the target email and bounded by the token's one-hour validity. -/
def set_reset_token_cache (cs : CacheSt) (email token : String) : Bool × CacheSt :=
  match cs.redis_client, cs.cache_enabled with
  | some r, true =>
    let r2 := r.setex (generate_key "reset_token" email) 3600 (RVal.txt (Json.str token))
    (true, { cs with redis_client := some r2 })
  | _, _ => (false, cs)

/-- Modelled from the spec: `invalidate_reset_token(token, email)` is called by
`reset_password` (src/src/api/auth.py) but absent from `CacheService`.
Spec §3/§4.4: the reset-token entry and the attempt counter "are invalidated
together once a reset completes", in one batch. -/
def invalidate_reset_token (cs : CacheSt) (token email : String) : Bool × CacheSt :=
  match cs.redis_client, cs.cache_enabled with
  | some r, true =>
    let keys := [generate_key "reset_token" email, generate_key "reset_attempts" email]
    (true, { cs with redis_client := some (r.delMany keys).2 })
  | _, _ => (false, cs)

/-- Modelled from the spec: `cache_user_role(user_id, role, ttl≈15m)` is called
by `require_role` (src/src/services/auth.py) but absent from `CacheService`.
Spec §4.4 and the unit tests (tests/unit/test_services.py::test_cache_user_role)
fix the shape: key `f"user_role:{user_id}"`, value `json.dumps({"role": role})`,
TTL 900 seconds. -/
def cache_user_role (cs : CacheSt) (user_id : Int) (role : String) : Bool × CacheSt :=
  match cs.redis_client, cs.cache_enabled with
  | some r, true =>
    let key := "user_role:" ++ toString user_id
    let r2 := r.setex key 900 (RVal.txt (Json.obj [("role", Json.str role)]))
    (true, { cs with redis_client := some r2 })
  | _, _ => (false, cs)

/-- Modelled from the spec: `get_user_role_cache(user_id) -> role|miss` is
called by the role middleware (src/src/services/middleware.py) but absent from
`CacheService`.  A malformed payload fails closed to a miss. -/
def get_user_role_cache (cs : CacheSt) (user_id : Int) : Option String :=
  match cs.redis_client, cs.cache_enabled with
  | some r, true =>
    match r.getLive ("user_role:" ++ toString user_id) with
    | some (RVal.txt j) =>
      match j.lookup "role" with
      | some (Json.str role) => some role
      | _ => none
    | _ => none
  | _, _ => none

/-- Modelled from the spec: `invalidate_user_role_cache(user_id)` is called by
`AdminService.update_user_role` (src/src/services/admin.py) but absent from
`CacheService`.  Spec §3: the role assertion "must be invalidated synchronously
whenever an admin changes that user's role". -/
def invalidate_user_role_cache (cs : CacheSt) (user_id : Int) : Bool × CacheSt :=
  match cs.redis_client, cs.cache_enabled with
  | some r, true =>
    (true, { cs with redis_client := some (r.delMany ["user_role:" ++ toString user_id]).2 })
  | _, _ => (false, cs)

theorem now_setAbs (r : Redis) (k : String) (exp : Nat) (v : RVal) :
    (r.setAbs k exp v).now = r.now := rfl

theorem now_setex (r : Redis) (k : String) (ttl : Nat) (v : RVal) :
    (r.setex k ttl v).now = r.now := rfl

theorem now_delMany (r : Redis) (ks : List String) :
    ((r.delMany ks).2).now = r.now := rfl

theorem find?_filter_keep {α : Type} (l : List α) (p q : α → Bool)
    (hpq : ∀ a, q a = true → p a = true) :
    (l.filter p).find? q = l.find? q := by
  induction l with
  | nil => rfl
  | cons a l ih =>
    cases hq : q a with
    | true =>
      rw [List.filter_cons, if_pos (hpq a hq), List.find?_cons, List.find?_cons, hq]
    | false =>
      cases hp : p a with
      | true =>
        rw [List.filter_cons, if_pos hp, List.find?_cons, List.find?_cons, hq, ih]
      | false =>
        rw [List.filter_cons, if_neg (by simp [hp]), List.find?_cons, hq, ih]

theorem find?_filter_drop {α : Type} (l : List α) (p q : α → Bool)
    (hpq : ∀ a, q a = true → p a = false) :
    (l.filter p).find? q = none := by
  induction l with
  | nil => rfl
  | cons a l ih =>
    cases hp : p a with
    | true =>
      have hq : q a = false := by
        cases hqa : q a with
        | true => rw [hpq a hqa] at hp; exact absurd hp (by simp)
        | false => rfl
      rw [List.filter_cons, if_pos hp, List.find?_cons, hq, ih]
    | false =>
      rw [List.filter_cons, if_neg (by simp [hp]), ih]

theorem Redis.getEntry_setAbs (r : Redis) (k : String) (exp : Nat) (v : RVal)
    (k' : String) :
    (r.setAbs k exp v).getEntry k' =
      if k' = k then some (v, exp) else r.getEntry k' := by
  by_cases h : k' = k
  · subst h
    simp [Redis.setAbs, Redis.erase, Redis.getEntry, List.find?_cons]
  · rw [if_neg h]
    unfold Redis.setAbs Redis.erase Redis.getEntry
    have hpred : (k == k') = false := by
      simp; exact fun hh => h hh.symm
    simp only [List.find?_cons, hpred]
    rw [find?_filter_keep _ _ _ (fun a ha => ?_)]
    have : a.1 = k' := by simpa using ha
    simp [this, h]

theorem Redis.getEntry_setex (r : Redis) (k : String) (ttl : Nat) (v : RVal)
    (k' : String) :
    (r.setex k ttl v).getEntry k' =
      if k' = k then some (v, r.now + ttl) else r.getEntry k' :=
  Redis.getEntry_setAbs r k (r.now + ttl) v k' 

theorem Redis.getLive_setex_self (r : Redis) (k : String) (ttl : Nat) (v : RVal)
    (h : 0 < ttl) :
    (r.setex k ttl v).getLive k = some v := by
  unfold Redis.getLive
  rw [Redis.getEntry_setex, if_pos rfl, now_setex]
  simp [h]

theorem Redis.getLive_setex_other (r : Redis) (k : String) (ttl : Nat) (v : RVal)
    (k' : String) (h : k' ≠ k) :
    (r.setex k ttl v).getLive k' = r.getLive k' := by
  unfold Redis.getLive
  rw [Redis.getEntry_setex, if_neg h, now_setex]

theorem Redis.getEntry_delMany (r : Redis) (ks : List String) (k' : String) :
    ((r.delMany ks).2).getEntry k' =
      if k' ∈ ks then none else r.getEntry k' := by
  by_cases h : k' ∈ ks
  · rw [if_pos h]
    unfold Redis.delMany Redis.getEntry
    simp only
    rw [find?_filter_drop _ _ _ (fun a ha => ?_)]
    · rfl
    · have : a.1 = k' := by simpa using ha
      simp [this, h]
  · rw [if_neg h]
    unfold Redis.delMany Redis.getEntry
    simp only
    rw [find?_filter_keep _ _ _ (fun a ha => ?_)]
    have : a.1 = k' := by simpa using ha
    simp [this]
    exact h

theorem Redis.getLive_delMany (r : Redis) (ks : List String) (k' : String) :
    ((r.delMany ks).2).getLive k' =
      if k' ∈ ks then none else r.getLive k' := by
  unfold Redis.getLive
  rw [Redis.getEntry_delMany, now_delMany]
  by_cases h : k' ∈ ks
  · simp [h]
  · simp [h]

theorem set_user_cache_getLive (r : Redis) (u : User) (ttl : Nat) (httl : 0 < ttl)
    (k : String)
    (hk : k = generate_key "user_id" (toString u.id) ∨
          k = generate_key "user_username" u.username ∨
          k = generate_key "user_email" u.email) :
    (((r.setex (generate_key "user_id" (toString u.id)) ttl
          (RVal.txt (serialize_user u))).setex
        (generate_key "user_username" u.username) ttl
          (RVal.txt (serialize_user u))).setex
      (generate_key "user_email" u.email) ttl
        (RVal.txt (serialize_user u))).getLive k =
      some (RVal.txt (serialize_user u)) := by
  by_cases h3 : k = generate_key "user_email" u.email
  · subst h3
    exact Redis.getLive_setex_self _ _ _ _ httl
  · rw [Redis.getLive_setex_other _ _ _ _ _ h3]
    by_cases h2 : k = generate_key "user_username" u.username
    · subst h2
      exact Redis.getLive_setex_self _ _ _ _ httl
    · rw [Redis.getLive_setex_other _ _ _ _ _ h2]
      rcases hk with h1 | h1 | h1
      · subst h1
        exact Redis.getLive_setex_self _ _ _ _ httl
      · exact absurd h1 h2
      · exact absurd h1 h3

/-- C1: for an enabled, reachable backend, after `set_user_cache(U)` succeeds,
`get_user_by_id(U.id)`, `get_user_by_username(U.username)` and
`get_user_by_email(U.email)` all return the same serialized snapshot of `U`;
and after `invalidate_user_cache(U)`, all three lookups return a miss. -/
theorem triple_key_user_cache_consistency (cs : CacheSt) (r : Redis) (u : User)
    (ttl : Nat) (hen : cs.cache_enabled = true) (hr : cs.redis_client = some r)
    (httl : 0 < ttl) :
    (set_user_cache cs u ttl).1 = true ∧
    get_user_by_id (set_user_cache cs u ttl).2 u.id =
      some (deserialize_user (serialize_user u)) ∧
    get_user_by_username (set_user_cache cs u ttl).2 u.username =
      some (deserialize_user (serialize_user u)) ∧
    get_user_by_email (set_user_cache cs u ttl).2 u.email =
      some (deserialize_user (serialize_user u)) ∧
    get_user_by_id (invalidate_user_cache (set_user_cache cs u ttl).2 u).2 u.id =
      none ∧
    get_user_by_username
      (invalidate_user_cache (set_user_cache cs u ttl).2 u).2 u.username = none ∧
    get_user_by_email
      (invalidate_user_cache (set_user_cache cs u ttl).2 u).2 u.email = none := by
  obtain ⟨en, rc⟩ := cs
  simp only at hen hr
  subst hen
  subst hr
  simp only [set_user_cache, invalidate_user_cache, get_user_by_id,
    get_user_by_username, get_user_by_email, read_user_key]
  rw [set_user_cache_getLive r u ttl httl _ (Or.inl rfl),
      set_user_cache_getLive r u ttl httl _ (Or.inr (Or.inl rfl)),
      set_user_cache_getLive r u ttl httl _ (Or.inr (Or.inr rfl))]
  rw [Redis.getLive_delMany, Redis.getLive_delMany, Redis.getLive_delMany]
  refine ⟨trivial, rfl, rfl, rfl, ?_, ?_, ?_⟩
  · rw [if_pos (by simp)]
  · rw [if_pos (by simp)]
  · rw [if_pos (by simp)]

/-- A sample user for concrete witnesses. -/
def sampleUser : User :=
  { id := 7, username := "alice", email := "a@x.com", hashed_password := "h4sh",
    full_name := some "Alice A", is_active := true, is_verified := false,
    verification_token := none, avatar_url := none, reset_token := none,
    reset_token_expires := none }

/-- An enabled cache service over an empty backend. -/
def emptyCache : CacheSt :=
  { cache_enabled := true, redis_client := some { now := 0, store := [], info := [] } }

theorem triple_key_user_cache_consistency_witness :
    (set_user_cache emptyCache sampleUser 3600).1 = true ∧
    get_user_by_id (set_user_cache emptyCache sampleUser 3600).2 sampleUser.id =
      some (deserialize_user (serialize_user sampleUser)) ∧
    get_user_by_username
      (set_user_cache emptyCache sampleUser 3600).2 sampleUser.username =
      some (deserialize_user (serialize_user sampleUser)) ∧
    get_user_by_email
      (set_user_cache emptyCache sampleUser 3600).2 sampleUser.email =
      some (deserialize_user (serialize_user sampleUser)) ∧
    get_user_by_id
      (invalidate_user_cache (set_user_cache emptyCache sampleUser 3600).2
        sampleUser).2 sampleUser.id = none ∧
    get_user_by_username
      (invalidate_user_cache (set_user_cache emptyCache sampleUser 3600).2
        sampleUser).2 sampleUser.username = none ∧
    get_user_by_email
      (invalidate_user_cache (set_user_cache emptyCache sampleUser 3600).2
        sampleUser).2 sampleUser.email = none :=
  triple_key_user_cache_consistency emptyCache
    { now := 0, store := [], info := [] } sampleUser 3600 rfl rfl (by decide)

/-- C2: with the cache backend disabled, every public Cache Service operation
is a backend no-op that raises nothing and signals only through its return
value: the reads return a miss (`None`), the writes/invalidation report
`False`, `clear_user_all_cache` performs no backend operation (it reports
`True`), and `get_cache_stats` returns the disabled-stats shape; the service
state is unchanged in every case. -/
theorem cache_disabled_fail_open (cs : CacheSt) (hd : cs.cache_enabled = false)
    (u : User) (i : Int) (username email : String) (uid : Int)
    (l : List Contact) (ttl : Nat) :
    set_user_cache cs u ttl = (false, cs) ∧
    get_user_by_id cs i = none ∧
    get_user_by_username cs username = none ∧
    get_user_by_email cs email = none ∧
    invalidate_user_cache cs u = (false, cs) ∧
    set_contacts_cache cs uid l ttl = (false, cs) ∧
    get_contacts_cache cs uid = none ∧
    invalidate_contacts_cache cs uid = (false, cs) ∧
    clear_user_all_cache cs uid = (true, cs) ∧
    get_cache_stats cs =
      Json.obj [("enabled", Json.bool false),
                ("error", Json.str "Cache disabled or unavailable")] := by
  obtain ⟨en, rc⟩ := cs
  simp only at hd
  subst hd
  cases rc <;>
    simp [set_user_cache, get_user_by_id, get_user_by_username, get_user_by_email,
      read_user_key, invalidate_user_cache, set_contacts_cache, get_contacts_cache,
      invalidate_contacts_cache, clear_user_all_cache, get_cache_stats]

/-- A cache service whose backend was marked unreachable at startup. -/
def disabledCache : CacheSt := { cache_enabled := false, redis_client := none }

theorem cache_disabled_fail_open_witness :
    set_user_cache disabledCache sampleUser 3600 = (false, disabledCache) ∧
    get_user_by_id disabledCache 7 = none ∧
    get_user_by_username disabledCache "alice" = none ∧
    get_user_by_email disabledCache "a@x.com" = none ∧
    invalidate_user_cache disabledCache sampleUser = (false, disabledCache) ∧
    set_contacts_cache disabledCache 7 [] 1800 = (false, disabledCache) ∧
    get_contacts_cache disabledCache 7 = none ∧
    invalidate_contacts_cache disabledCache 7 = (false, disabledCache) ∧
    clear_user_all_cache disabledCache 7 = (true, disabledCache) ∧
    get_cache_stats disabledCache =
      Json.obj [("enabled", Json.bool false),
                ("error", Json.str "Cache disabled or unavailable")] :=
  cache_disabled_fail_open disabledCache rfl sampleUser 7 "alice" "a@x.com" 7 [] 3600

theorem getEntry_advance (r : Redis) (d : Nat) (k : String) :
    (r.advance d).getEntry k = r.getEntry k := rfl

theorem now_advance (r : Redis) (d : Nat) : (r.advance d).now = r.now + d := rfl

theorem check_reset_attempts_fresh (r : Redis) (email : String) (m : Nat)
    (hfresh : r.getEntry (generate_key "reset_attempts" email) = none) :
    check_reset_attempts ⟨true, some r⟩ email m =
      (decide (1 ≤ m),
       ⟨true, some (r.setex (generate_key "reset_attempts" email)
         reset_attempts_window (RVal.txt (Json.num 1)))⟩) := by
  simp only [check_reset_attempts]
  rw [hfresh]

theorem check_reset_attempts_incr (r : Redis) (email : String)
    (m : Nat) (n : Int) (exp : Nat)
    (hcnt : r.getEntry (generate_key "reset_attempts" email) =
      some (RVal.txt (Json.num n), exp))
    (hlive : r.now < exp) :
    check_reset_attempts ⟨true, some r⟩ email m =
      (decide (n + 1 ≤ (m : Int)),
       ⟨true, some (r.setAbs (generate_key "reset_attempts" email) exp
         (RVal.txt (Json.num (n + 1))))⟩) := by
  simp only [check_reset_attempts]
  rw [hcnt]
  simp only [if_pos hlive]

theorem check_reset_attempts_expired (r : Redis) (email : String)
    (m : Nat) (n : Int) (exp : Nat)
    (hcnt : r.getEntry (generate_key "reset_attempts" email) =
      some (RVal.txt (Json.num n), exp))
    (hdead : ¬ r.now < exp) :
    check_reset_attempts ⟨true, some r⟩ email m =
      (decide (1 ≤ m),
       ⟨true, some (r.setex (generate_key "reset_attempts" email)
         reset_attempts_window (RVal.txt (Json.num 1)))⟩) := by
  simp only [check_reset_attempts]
  rw [hcnt]
  simp only [if_neg hdead]

/-- `i` consecutive `check_reset_attempts` calls for one email. -/
def iterate_reset (cs : CacheSt) (email : String) (m : Nat) : Nat → CacheSt
  | 0 => cs
  | Nat.succ j => (check_reset_attempts (iterate_reset cs email m j) email m).2

/-- C3 (spec-modelled): with `max_attempts = 3` and no live counter for the
email, the first three `check_reset_attempts` calls within the TTL window
return `true`, the fourth returns `false`; after the window elapses, or after
`invalidate_reset_token`, a subsequent call returns `true` again. -/
theorem reset_rate_limit_boundary (cs : CacheSt) (r : Redis) (email tok : String)
    (hen : cs.cache_enabled = true) (hr : cs.redis_client = some r)
    (hfresh : r.getEntry (generate_key "reset_attempts" email) = none) :
    (check_reset_attempts (iterate_reset cs email 3 0) email 3).1 = true ∧
    (check_reset_attempts (iterate_reset cs email 3 1) email 3).1 = true ∧
    (check_reset_attempts (iterate_reset cs email 3 2) email 3).1 = true ∧
    (check_reset_attempts (iterate_reset cs email 3 3) email 3).1 = false ∧
    (check_reset_attempts
      ((iterate_reset cs email 3 4).advance reset_attempts_window) email 3).1 =
      true ∧
    (check_reset_attempts
      (invalidate_reset_token (iterate_reset cs email 3 4) tok email).2 email 3).1 =
      true := by
  obtain ⟨en, rc⟩ := cs
  simp only at hen hr
  subst hen; subst hr
  have e1 := check_reset_attempts_fresh r email 3 hfresh
  have g1 : (r.setex (generate_key "reset_attempts" email) reset_attempts_window
      (RVal.txt (Json.num 1))).getEntry (generate_key "reset_attempts" email) =
      some (RVal.txt (Json.num 1), r.now + reset_attempts_window) := by
    rw [Redis.getEntry_setex, if_pos rfl]
  have hlive1 : (r.setex (generate_key "reset_attempts" email)
      reset_attempts_window (RVal.txt (Json.num 1))).now <
      r.now + reset_attempts_window := by
    rw [now_setex]
    have : 0 < reset_attempts_window := by decide
    omega
  have e2 := check_reset_attempts_incr _ email 3 1 (r.now + reset_attempts_window)
    g1 hlive1
  have g2 : ((r.setex (generate_key "reset_attempts" email) reset_attempts_window
        (RVal.txt (Json.num 1))).setAbs (generate_key "reset_attempts" email)
        (r.now + reset_attempts_window) (RVal.txt (Json.num 2))).getEntry
      (generate_key "reset_attempts" email) =
      some (RVal.txt (Json.num 2), r.now + reset_attempts_window) := by
    rw [Redis.getEntry_setAbs, if_pos rfl]
  have hlive2 : ((r.setex (generate_key "reset_attempts" email)
        reset_attempts_window (RVal.txt (Json.num 1))).setAbs
        (generate_key "reset_attempts" email) (r.now + reset_attempts_window)
        (RVal.txt (Json.num 2))).now < r.now + reset_attempts_window := by
    rw [now_setAbs, now_setex]
    have : 0 < reset_attempts_window := by decide
    omega
  have e3 := check_reset_attempts_incr _ email 3 2 (r.now + reset_attempts_window)
    g2 hlive2
  have g3 : (((r.setex (generate_key "reset_attempts" email)
        reset_attempts_window (RVal.txt (Json.num 1))).setAbs
        (generate_key "reset_attempts" email) (r.now + reset_attempts_window)
        (RVal.txt (Json.num 2))).setAbs (generate_key "reset_attempts" email)
        (r.now + reset_attempts_window) (RVal.txt (Json.num 3))).getEntry
      (generate_key "reset_attempts" email) =
      some (RVal.txt (Json.num 3), r.now + reset_attempts_window) := by
    rw [Redis.getEntry_setAbs, if_pos rfl]
  have hlive3 : (((r.setex (generate_key "reset_attempts" email)
        reset_attempts_window (RVal.txt (Json.num 1))).setAbs
        (generate_key "reset_attempts" email) (r.now + reset_attempts_window)
        (RVal.txt (Json.num 2))).setAbs (generate_key "reset_attempts" email)
        (r.now + reset_attempts_window) (RVal.txt (Json.num 3))).now <
      r.now + reset_attempts_window := by
    rw [now_setAbs, now_setAbs, now_setex]
    have : 0 < reset_attempts_window := by decide
    omega
  have e4 := check_reset_attempts_incr _ email 3 3 (r.now + reset_attempts_window)
    g3 hlive3
  have g4 : ((((r.setex (generate_key "reset_attempts" email)
        reset_attempts_window (RVal.txt (Json.num 1))).setAbs
        (generate_key "reset_attempts" email) (r.now + reset_attempts_window)
        (RVal.txt (Json.num 2))).setAbs (generate_key "reset_attempts" email)
        (r.now + reset_attempts_window) (RVal.txt (Json.num 3))).setAbs
        (generate_key "reset_attempts" email) (r.now + reset_attempts_window)
        (RVal.txt (Json.num 4))).getEntry (generate_key "reset_attempts" email) =
      some (RVal.txt (Json.num 4), r.now + reset_attempts_window) := by
    rw [Redis.getEntry_setAbs, if_pos rfl]
  have s1 : iterate_reset ⟨true, some r⟩ email 3 1 =
      ⟨true, some (r.setex (generate_key "reset_attempts" email)
        reset_attempts_window (RVal.txt (Json.num 1)))⟩ := by
    show (check_reset_attempts (iterate_reset ⟨true, some r⟩ email 3 0) email 3).2 = _
    rw [show iterate_reset ⟨true, some r⟩ email 3 0 = ⟨true, some r⟩ from rfl, e1]
  have s2 : iterate_reset ⟨true, some r⟩ email 3 2 =
      ⟨true, some ((r.setex (generate_key "reset_attempts" email)
          reset_attempts_window (RVal.txt (Json.num 1))).setAbs
        (generate_key "reset_attempts" email) (r.now + reset_attempts_window)
        (RVal.txt (Json.num 2)))⟩ := by
    show (check_reset_attempts (iterate_reset ⟨true, some r⟩ email 3 1) email 3).2 = _
    rw [s1, e2]
    rfl
  have s3 : iterate_reset ⟨true, some r⟩ email 3 3 =
      ⟨true, some (((r.setex (generate_key "reset_attempts" email)
            reset_attempts_window (RVal.txt (Json.num 1))).setAbs
          (generate_key "reset_attempts" email) (r.now + reset_attempts_window)
          (RVal.txt (Json.num 2))).setAbs
        (generate_key "reset_attempts" email) (r.now + reset_attempts_window)
        (RVal.txt (Json.num 3)))⟩ := by
    show (check_reset_attempts (iterate_reset ⟨true, some r⟩ email 3 2) email 3).2 = _
    rw [s2, e3]
    rfl
  have s4 : iterate_reset ⟨true, some r⟩ email 3 4 =
      ⟨true, some ((((r.setex (generate_key "reset_attempts" email)
              reset_attempts_window (RVal.txt (Json.num 1))).setAbs
            (generate_key "reset_attempts" email) (r.now + reset_attempts_window)
            (RVal.txt (Json.num 2))).setAbs
          (generate_key "reset_attempts" email) (r.now + reset_attempts_window)
          (RVal.txt (Json.num 3))).setAbs
        (generate_key "reset_attempts" email) (r.now + reset_attempts_window)
        (RVal.txt (Json.num 4)))⟩ := by
    show (check_reset_attempts (iterate_reset ⟨true, some r⟩ email 3 3) email 3).2 = _
    rw [s3, e4]
    rfl
  refine ⟨?_, ?_, ?_, ?_, ?_, ?_⟩
  · rw [show iterate_reset ⟨true, some r⟩ email 3 0 = ⟨true, some r⟩ from rfl, e1]
    rfl
  · rw [s1, e2]; rfl
  · rw [s2, e3]; rfl
  · rw [s3, e4]; rfl
  · rw [s4]
    simp only [CacheSt.advance, Option.map]
    rw [check_reset_attempts_expired _ email 3 4 (r.now + reset_attempts_window)
      (by rw [getEntry_advance]; exact g4)
      (by rw [now_advance, now_setAbs, now_setAbs, now_setAbs, now_setex]; omega)]
    rfl
  · rw [s4]
    simp only [invalidate_reset_token]
    rw [check_reset_attempts_fresh _ email 3
      (by rw [Redis.getEntry_delMany, if_pos (by simp)])]
    rfl

theorem reset_rate_limit_boundary_witness :
    (check_reset_attempts (iterate_reset emptyCache "bob@x.com" 3 0) "bob@x.com" 3).1 =
      true ∧
    (check_reset_attempts (iterate_reset emptyCache "bob@x.com" 3 1) "bob@x.com" 3).1 =
      true ∧
    (check_reset_attempts (iterate_reset emptyCache "bob@x.com" 3 2) "bob@x.com" 3).1 =
      true ∧
    (check_reset_attempts (iterate_reset emptyCache "bob@x.com" 3 3) "bob@x.com" 3).1 =
      false ∧
    (check_reset_attempts
      ((iterate_reset emptyCache "bob@x.com" 3 4).advance reset_attempts_window)
      "bob@x.com" 3).1 = true ∧
    (check_reset_attempts
      (invalidate_reset_token (iterate_reset emptyCache "bob@x.com" 3 4) "tkn"
        "bob@x.com").2 "bob@x.com" 3).1 = true :=
  reset_rate_limit_boundary emptyCache { now := 0, store := [], info := [] }
    "bob@x.com" "tkn" rfl rfl rfl

/-- C4: after `invalidate_user_role_cache(U.id)` — as `AdminService.update_user_role`
does when an admin changes U's role — a subsequent `get_user_role_cache(U.id)`
returns a miss, never the previously cached role, in every cache-service state. -/
theorem role_cache_invalidated_reads_miss (cs : CacheSt) (uid : Int) :
    get_user_role_cache (invalidate_user_role_cache cs uid).2 uid = none := by
  obtain ⟨en, rc⟩ := cs
  cases rc with
  | none => cases en <;> rfl
  | some r =>
    cases en with
    | false => rfl
    | true =>
      simp only [invalidate_user_role_cache, get_user_role_cache]
      rw [Redis.getLive_delMany, if_pos (by simp)]

/-- C9: a key holding a malformed cached payload (one `json.loads` rejects)
is treated as a cache miss by every read path — the decode failure is caught
inside the cache layer and never reaches the caller. -/
theorem malformed_payload_reads_miss (cs : CacheSt) (r : Redis) (uid : Int)
    (username email : String)
    (hen : cs.cache_enabled = true) (hr : cs.redis_client = some r)
    (h1 : r.getLive (generate_key "user_id" (toString uid)) = some RVal.bad)
    (h2 : r.getLive (generate_key "user_username" username) = some RVal.bad)
    (h3 : r.getLive (generate_key "user_email" email) = some RVal.bad)
    (h4 : r.getLive (generate_key "user_contacts" (toString uid)) = some RVal.bad) :
    get_user_by_id cs uid = none ∧
    get_user_by_username cs username = none ∧
    get_user_by_email cs email = none ∧
    get_contacts_cache cs uid = none := by
  obtain ⟨en, rc⟩ := cs
  simp only at hen hr
  subst hen; subst hr
  simp only [get_user_by_id, get_user_by_username, get_user_by_email,
    read_user_key, get_contacts_cache]
  rw [h1, h2, h3, h4]
  exact ⟨rfl, rfl, rfl, rfl⟩

/-- A backend holding only corrupted payloads under the user-7 keys. -/
def corruptRedis : Redis :=
  { now := 0,
    store := [(generate_key "user_id" (toString (7 : Int)), RVal.bad, 100),
              (generate_key "user_username" "alice", RVal.bad, 100),
              (generate_key "user_email" "a@x.com", RVal.bad, 100),
              (generate_key "user_contacts" (toString (7 : Int)), RVal.bad, 100)],
    info := [] }

/-- A cache service whose backend holds only corrupted payloads. -/
def corruptCache : CacheSt :=
  { cache_enabled := true, redis_client := some corruptRedis }

theorem malformed_payload_reads_miss_witness :
    get_user_by_id corruptCache 7 = none ∧
    get_user_by_username corruptCache "alice" = none ∧
    get_user_by_email corruptCache "a@x.com" = none ∧
    get_contacts_cache corruptCache 7 = none :=
  malformed_payload_reads_miss corruptCache corruptRedis 7 "alice" "a@x.com"
    rfl rfl rfl rfl rfl rfl

/-- C10: for a user whose authoritative contact list is empty,
`ContactService.get_contacts` always answers from the authoritative store
(the repository is queried), returns the empty list, and leaves the cache
untouched: an empty fetched list is never written to the cache, and a cached
empty list — the only cache content such a user can have besides a miss — is
falsy and hence treated as a miss rather than served. -/
theorem empty_contact_list_bypasses_cache (st : AppSt) (uid : Int)
    (skip limit : Nat)
    (hempty : st.db.rows.filter (fun c => c.user_id == uid) = [])
    (hcache : get_contacts_cache st.cache uid = none ∨
              get_contacts_cache st.cache uid = some (Json.arr [])) :
    service_get_contacts st uid skip limit = some ([], st, true) := by
  have hdb : repo_get_contacts_by_user st.db uid skip limit = [] := by
    unfold repo_get_contacts_by_user
    rw [hempty]
    simp
  simp only [service_get_contacts, hdb]
  rcases hcache with hc | hc <;> rw [hc] <;>
    simp [Json.truthy]

/-- An application state with an empty contacts table and a stale cached empty
list for user 7. -/
def emptyListApp : AppSt :=
  { db := { rows := [], next_id := 1 },
    cache := { cache_enabled := true,
               redis_client := some
                 { now := 0,
                   store := [(generate_key "user_contacts" (toString (7 : Int)),
                              RVal.txt (Json.arr []), 100)],
                   info := [] } } }

theorem empty_contact_list_bypasses_cache_witness :
    service_get_contacts emptyListApp 7 0 100 = some ([], emptyListApp, true) :=
  empty_contact_list_bypasses_cache emptyListApp 7 0 100 rfl (Or.inr rfl)

/-- A contact of user 7. -/
def c1Sample : Contact :=
  { id := 1, first_name := "Ann", last_name := "One", email := "c1@x.com",
    phone := "111", birthday := none, additional_info := none, user_id := 7 }

/-- A second contact of user 7. -/
def c2Sample : Contact :=
  { id := 2, first_name := "Ben", last_name := "Two", email := "c2@x.com",
    phone := "222", birthday := some ⟨1990, 5, 17⟩, additional_info := some "x",
    user_id := 7 }

/-- Application state: user 7 owns two contacts; the cache is empty. -/
def twoContactsApp : AppSt :=
  { db := { rows := [c1Sample, c2Sample], next_id := 3 }, cache := emptyCache }

/-- C5 (failing-input evaluation): `get_contacts(user_id=7, skip=0, limit=1)`
against a user owning two contacts populates the contacts cache with the
1-element truncated page `[c1]`, not the entire unpaginated 2-element list —
the populate step fires whenever `skip == 0` and the paginated fetch is
non-empty, and stores exactly the fetched page. -/
theorem contacts_cache_truncated_on_populate :
    ((service_get_contacts twoContactsApp 7 0 1).map fun res =>
        (res.1, get_contacts_cache (res.2.1).cache 7)) =
      some ([c1Sample], some (Json.arr [serialize_contact c1Sample])) ∧
    twoContactsApp.db.rows.filter (fun c => c.user_id == 7) =
      [c1Sample, c2Sample] :=
  ⟨rfl, rfl⟩

theorem get_contacts_cache_invalidate (cs : CacheSt) (uid : Int) :
    get_contacts_cache (invalidate_contacts_cache cs uid).2 uid = none := by
  obtain ⟨en, rc⟩ := cs
  cases rc with
  | none => cases en <;> rfl
  | some r =>
    cases en with
    | false => rfl
    | true =>
      simp only [invalidate_contacts_cache, get_contacts_cache]
      rw [Redis.getLive_delMany, if_pos (by simp)]

/-- A create request whose email collides with no contact of user 7. -/
def cNewSample : ContactCreate :=
  { first_name := "Cee", last_name := "Three", email := "c3@x.com",
    phone := "333", birthday := ⟨1991, 1, 2⟩, additional_info := none }

/-- An update request leaving every field unset. -/
def emptyUpdate : ContactUpdate :=
  { first_name := none, last_name := none, email := none, phone := none,
    birthday := none, additional_info := none }

/-- Application state: user 7 owns two contacts and the contacts cache holds
the list `[c1Sample]` written by `set_contacts_cache`. -/
def cachedListApp : AppSt :=
  { twoContactsApp with
    cache := (set_contacts_cache twoContactsApp.cache 7 [c1Sample] 1800).2 }

/-- C6 (failing-input evaluation): after `set_contacts_cache(7, [c1])`, an
attempted contact create for user 7 raises before any invalidation — the
pydantic rebuild drops the injected `user_id`, the repository inserts `NULL`
into the `NOT NULL` `contacts.user_id` column and `IntegrityError` escapes the
service (modelled `none`) without the cached list being touched, so
`get_contacts_cache(7)` still serves it instead of missing.  A successful
update of an owned contact and a successful delete of an owned contact, from
the same state, do invalidate the key as the claim says. -/
theorem create_contact_never_invalidates :
    service_create_contact cachedListApp cNewSample 7 = none ∧
    get_contacts_cache cachedListApp.cache 7 =
      some (Json.arr [serialize_contact c1Sample]) ∧
    ((service_update_contact cachedListApp 1 emptyUpdate 7).map
      (fun res => get_contacts_cache res.2.cache 7)) = some none ∧
    get_contacts_cache (service_delete_contact cachedListApp 2 7).2.cache 7 =
      none :=
  ⟨rfl, rfl, rfl, rfl⟩

theorem key_id_ne_contacts (x y : String) :
    generate_key "user_id" x ≠ generate_key "user_contacts" y := by
  intro h
  have h2 := congrArg String.data h
  rw [show generate_key "user_id" x = "Contacts API:user_id:" ++ x from rfl,
      show generate_key "user_contacts" y = "Contacts API:user_contacts:" ++ y from rfl,
      String.data_append, String.data_append,
      show ("Contacts API:user_id:").data =
        ['C','o','n','t','a','c','t','s',' ','A','P','I',':','u','s','e','r','_','i','d',':']
        from by decide,
      show ("Contacts API:user_contacts:").data =
        ['C','o','n','t','a','c','t','s',' ','A','P','I',':','u','s','e','r','_','c','o','n','t','a','c','t','s',':']
        from by decide] at h2
  simp at h2

theorem key_username_ne_contacts (x y : String) :
    generate_key "user_username" x ≠ generate_key "user_contacts" y := by
  intro h
  have h2 := congrArg String.data h
  rw [show generate_key "user_username" x = "Contacts API:user_username:" ++ x from rfl,
      show generate_key "user_contacts" y = "Contacts API:user_contacts:" ++ y from rfl,
      String.data_append, String.data_append,
      show ("Contacts API:user_username:").data =
        ['C','o','n','t','a','c','t','s',' ','A','P','I',':','u','s','e','r','_','u','s','e','r','n','a','m','e',':']
        from by decide,
      show ("Contacts API:user_contacts:").data =
        ['C','o','n','t','a','c','t','s',' ','A','P','I',':','u','s','e','r','_','c','o','n','t','a','c','t','s',':']
        from by decide] at h2
  simp at h2

theorem key_email_ne_contacts (x y : String) :
    generate_key "user_email" x ≠ generate_key "user_contacts" y := by
  intro h
  have h2 := congrArg String.data h
  rw [show generate_key "user_email" x = "Contacts API:user_email:" ++ x from rfl,
      show generate_key "user_contacts" y = "Contacts API:user_contacts:" ++ y from rfl,
      String.data_append, String.data_append,
      show ("Contacts API:user_email:").data =
        ['C','o','n','t','a','c','t','s',' ','A','P','I',':','u','s','e','r','_','e','m','a','i','l',':']
        from by decide,
      show ("Contacts API:user_contacts:").data =
        ['C','o','n','t','a','c','t','s',' ','A','P','I',':','u','s','e','r','_','c','o','n','t','a','c','t','s',':']
        from by decide] at h2
  simp at h2

theorem lookup_serialize_user_id (u : User) :
    (serialize_user u).lookup "id" = some (Json.num u.id) := rfl

theorem lookup_serialize_user_username (u : User) :
    (serialize_user u).lookup "username" = some (Json.str u.username) := rfl

theorem lookup_serialize_user_email (u : User) :
    (serialize_user u).lookup "email" = some (Json.str u.email) := rfl

/-- A backend where user 7's snapshot is reachable via the username and email
keys and the contacts key is set, but the id key is absent. -/
def orphanRedis : Redis :=
  { now := 0,
    store := [(generate_key "user_username" "alice",
                 RVal.txt (serialize_user sampleUser), 100),
              (generate_key "user_email" "a@x.com",
                 RVal.txt (serialize_user sampleUser), 100),
              (generate_key "user_contacts" (toString (7 : Int)),
                 RVal.txt (Json.arr []), 100)],
    info := [] }

/-- The cache service over `orphanRedis`. -/
def orphanCache : CacheSt :=
  { cache_enabled := true, redis_client := some orphanRedis }

/-- C7 counterexample: when the user-id key is absent but the username and
email keys still hold user 7's snapshot, `clear_user_all_cache(7)` reports
success and clears the contacts key, yet leaves the username-keyed identity
entry (and the email-keyed one) in place — so the three identity keys are
*not* invalidated regardless of which entries are present. -/
theorem clear_user_all_cache_leaves_orphans :
    get_user_by_id orphanCache 7 = none ∧
    (clear_user_all_cache orphanCache 7).1 = true ∧
    get_user_by_username (clear_user_all_cache orphanCache 7).2 "alice" =
      some (serialize_user sampleUser) ∧
    get_user_by_email (clear_user_all_cache orphanCache 7).2 "a@x.com" =
      some (serialize_user sampleUser) ∧
    get_contacts_cache (clear_user_all_cache orphanCache 7).2 7 = none :=
  ⟨rfl, rfl, rfl, rfl, rfl⟩

/-- C7 (amended): `clear_user_all_cache(user_id)` always invalidates the
contacts-list key; it invalidates the three identity keys only when the
user-id key currently holds the user's snapshot, from which it derives the
username and email keys.  Here: when the id key holds `serialize_user u` with
`u.id = user_id`, all three identity keys and the contacts key read as a miss
afterwards. -/
theorem clear_user_all_cache_with_snapshot (cs : CacheSt) (r : Redis) (u : User)
    (uid : Int) (hen : cs.cache_enabled = true) (hr : cs.redis_client = some r)
    (hid : u.id = uid)
    (hsnap : get_user_by_id cs uid = some (serialize_user u)) :
    (clear_user_all_cache cs uid).1 = true ∧
    get_user_by_id (clear_user_all_cache cs uid).2 uid = none ∧
    get_user_by_username (clear_user_all_cache cs uid).2 u.username = none ∧
    get_user_by_email (clear_user_all_cache cs uid).2 u.email = none ∧
    get_contacts_cache (clear_user_all_cache cs uid).2 uid = none := by
  subst hid
  obtain ⟨en, rc⟩ := cs
  simp only at hen hr
  subst hen; subst hr
  simp only [clear_user_all_cache, hsnap, lookup_serialize_user_id,
    lookup_serialize_user_username, lookup_serialize_user_email,
    invalidate_user_cache, invalidate_contacts_cache, mkMockUser]
  simp only [get_user_by_id, get_user_by_username, get_user_by_email,
    get_contacts_cache, read_user_key]
  refine ⟨trivial, ?_, ?_, ?_, ?_⟩
  · rw [Redis.getLive_delMany, if_neg (by simp; exact key_id_ne_contacts _ _),
        Redis.getLive_delMany, if_pos (by simp)]
  · rw [Redis.getLive_delMany, if_neg (by simp; exact key_username_ne_contacts _ _),
        Redis.getLive_delMany, if_pos (by simp)]
  · rw [Redis.getLive_delMany, if_neg (by simp; exact key_email_ne_contacts _ _),
        Redis.getLive_delMany, if_pos (by simp)]
  · rw [Redis.getLive_delMany, if_pos (by simp)]

/-- A backend holding user 7's full snapshot triple plus a contacts list. -/
def snapshotRedis : Redis :=
  { now := 0,
    store := [(generate_key "user_id" (toString (7 : Int)),
                 RVal.txt (serialize_user sampleUser), 100),
              (generate_key "user_username" "alice",
                 RVal.txt (serialize_user sampleUser), 100),
              (generate_key "user_email" "a@x.com",
                 RVal.txt (serialize_user sampleUser), 100),
              (generate_key "user_contacts" (toString (7 : Int)),
                 RVal.txt (Json.arr []), 100)],
    info := [] }

/-- The cache service over `snapshotRedis`. -/
def snapshotCache : CacheSt :=
  { cache_enabled := true, redis_client := some snapshotRedis }

theorem clear_user_all_cache_with_snapshot_witness :
    (clear_user_all_cache snapshotCache 7).1 = true ∧
    get_user_by_id (clear_user_all_cache snapshotCache 7).2 7 = none ∧
    get_user_by_username (clear_user_all_cache snapshotCache 7).2
      sampleUser.username = none ∧
    get_user_by_email (clear_user_all_cache snapshotCache 7).2
      sampleUser.email = none ∧
    get_contacts_cache (clear_user_all_cache snapshotCache 7).2 7 = none :=
  clear_user_all_cache_with_snapshot snapshotCache snapshotRedis sampleUser 7
    rfl rfl rfl rfl

theorem isDigitCh_digitChar (n : Nat) (h : n < 10) :
    isDigitCh (digitChar n) = true := by
  interval_cases n <;> rfl

theorem digitVal_digitChar (n : Nat) (h : n < 10) : digitVal (digitChar n) = n := by
  interval_cases n <;> rfl

theorem fromisoformat_isoformat (d : DateD) (hd : d.valid) :
    fromisoformat d.isoformat = some d := by
  obtain ⟨y, m, dd⟩ := d
  obtain ⟨h1, h2, h3, h4, h5, h6⟩ := hd
  simp only at h1 h2 h3 h4 h5 h6
  have ha1 : y / 1000 % 10 < 10 := Nat.mod_lt _ (by norm_num)
  have ha2 : y / 100 % 10 < 10 := Nat.mod_lt _ (by norm_num)
  have ha3 : y / 10 % 10 < 10 := Nat.mod_lt _ (by norm_num)
  have ha4 : y % 10 < 10 := Nat.mod_lt _ (by norm_num)
  have hb1 : m / 10 % 10 < 10 := Nat.mod_lt _ (by norm_num)
  have hb2 : m % 10 < 10 := Nat.mod_lt _ (by norm_num)
  have hc1 : dd / 10 % 10 < 10 := Nat.mod_lt _ (by norm_num)
  have hc2 : dd % 10 < 10 := Nat.mod_lt _ (by norm_num)
  simp only [DateD.isoformat, fromisoformat,
    isDigitCh_digitChar _ ha1, isDigitCh_digitChar _ ha2,
    isDigitCh_digitChar _ ha3, isDigitCh_digitChar _ ha4,
    isDigitCh_digitChar _ hb1, isDigitCh_digitChar _ hb2,
    isDigitCh_digitChar _ hc1, isDigitCh_digitChar _ hc2,
    beq_self_eq_true, Bool.and_true, Bool.true_and, if_true,
    digitVal_digitChar _ ha1, digitVal_digitChar _ ha2,
    digitVal_digitChar _ ha3, digitVal_digitChar _ ha4,
    digitVal_digitChar _ hb1, digitVal_digitChar _ hb2,
    digitVal_digitChar _ hc1, digitVal_digitChar _ hc2,
    Option.some.injEq, DateD.mk.injEq]
  refine ⟨?_, ?_, ?_⟩ <;> omega

theorem lookup_serialize_contact_id (c : Contact) :
    (serialize_contact c).lookup "id" = some (Json.num c.id) := rfl

theorem lookup_serialize_contact_first_name (c : Contact) :
    (serialize_contact c).lookup "first_name" = some (Json.str c.first_name) := rfl

theorem lookup_serialize_contact_last_name (c : Contact) :
    (serialize_contact c).lookup "last_name" = some (Json.str c.last_name) := rfl

theorem lookup_serialize_contact_email (c : Contact) :
    (serialize_contact c).lookup "email" = some (Json.str c.email) := rfl

theorem lookup_serialize_contact_phone (c : Contact) :
    (serialize_contact c).lookup "phone" = some (Json.str c.phone) := rfl

theorem lookup_serialize_contact_birthday (c : Contact) :
    (serialize_contact c).lookup "birthday" =
      some (match c.birthday with
            | some b => Json.str b.isoformat
            | none => Json.null) := rfl

theorem lookup_serialize_contact_additional_info (c : Contact) :
    (serialize_contact c).lookup "additional_info" =
      some (optStrJson c.additional_info) := rfl

theorem lookup_serialize_contact_user_id (c : Contact) :
    (serialize_contact c).lookup "user_id" = some (Json.num c.user_id) := rfl

theorem lookup_serialize_user_full_name (u : User) :
    (serialize_user u).lookup "full_name" = some (optStrJson u.full_name) := rfl

theorem lookup_serialize_user_is_active (u : User) :
    (serialize_user u).lookup "is_active" = some (Json.bool u.is_active) := rfl

theorem lookup_serialize_user_is_verified (u : User) :
    (serialize_user u).lookup "is_verified" = some (Json.bool u.is_verified) := rfl

theorem lookup_serialize_user_avatar_url (u : User) :
    (serialize_user u).lookup "avatar_url" = some (optStrJson u.avatar_url) := rfl

theorem lookup_serialize_user_hashed_password (u : User) :
    (serialize_user u).lookup "hashed_password" =
      some (Json.str u.hashed_password) := rfl

/-- C8: serialization round-trips exactly.  For users the cached mapping
(`_deserialize_user` is the identity on the decoded JSON) recovers every
serialized field — strings, booleans, optional/null values and the password
hash — verbatim.  For contacts, rebuilding a `Contact` from its cached
mapping (the read path of `ContactService.get_contacts`, which decodes the
ISO-8601 birthday string back to a date) returns the original contact
exactly; the relationship back-references (`User.contacts`, `Contact.owner`)
are never serialized, so only they are outside the round trip. -/
theorem serializer_round_trip (u : User) (c : Contact)
    (hbd : ∀ b, c.birthday = some b → b.valid) :
    (deserialize_user (serialize_user u)).lookup "id" = some (Json.num u.id) ∧
    (deserialize_user (serialize_user u)).lookup "username" =
      some (Json.str u.username) ∧
    (deserialize_user (serialize_user u)).lookup "email" =
      some (Json.str u.email) ∧
    (deserialize_user (serialize_user u)).lookup "full_name" =
      some (optStrJson u.full_name) ∧
    (deserialize_user (serialize_user u)).lookup "is_active" =
      some (Json.bool u.is_active) ∧
    (deserialize_user (serialize_user u)).lookup "is_verified" =
      some (Json.bool u.is_verified) ∧
    (deserialize_user (serialize_user u)).lookup "avatar_url" =
      some (optStrJson u.avatar_url) ∧
    (deserialize_user (serialize_user u)).lookup "hashed_password" =
      some (Json.str u.hashed_password) ∧
    contact_from_cached (serialize_contact c) = some c := by
  refine ⟨rfl, rfl, rfl, rfl, rfl, rfl, rfl, rfl, ?_⟩
  obtain ⟨cid, cfn, cln, cem, cph, cbd, cai, cuid⟩ := c
  cases cbd with
  | none => cases cai <;> rfl
  | some b =>
    have hval : b.valid := hbd b rfl
    have hiso : b.isoformat.data.isEmpty = false := by
      obtain ⟨x1, x2, x3⟩ := b
      rfl
    cases cai <;>
      simp only [contact_from_cached, lookup_serialize_contact_id,
        lookup_serialize_contact_first_name, lookup_serialize_contact_last_name,
        lookup_serialize_contact_email, lookup_serialize_contact_phone,
        lookup_serialize_contact_birthday, lookup_serialize_contact_additional_info,
        lookup_serialize_contact_user_id, optStrJson, hiso, Bool.false_eq_true,
        if_neg, not_false_iff, fromisoformat_isoformat b hval, Option.map_some']

theorem serializer_round_trip_witness :
    (deserialize_user (serialize_user sampleUser)).lookup "id" =
      some (Json.num sampleUser.id) ∧
    (deserialize_user (serialize_user sampleUser)).lookup "username" =
      some (Json.str sampleUser.username) ∧
    (deserialize_user (serialize_user sampleUser)).lookup "email" =
      some (Json.str sampleUser.email) ∧
    (deserialize_user (serialize_user sampleUser)).lookup "full_name" =
      some (optStrJson sampleUser.full_name) ∧
    (deserialize_user (serialize_user sampleUser)).lookup "is_active" =
      some (Json.bool sampleUser.is_active) ∧
    (deserialize_user (serialize_user sampleUser)).lookup "is_verified" =
      some (Json.bool sampleUser.is_verified) ∧
    (deserialize_user (serialize_user sampleUser)).lookup "avatar_url" =
      some (optStrJson sampleUser.avatar_url) ∧
    (deserialize_user (serialize_user sampleUser)).lookup "hashed_password" =
      some (Json.str sampleUser.hashed_password) ∧
    contact_from_cached (serialize_contact c2Sample) = some c2Sample :=
  serializer_round_trip sampleUser c2Sample
    (fun b hb => by injection hb with h; rw [← h]; decide)
